import Mathlib

/-!
Verification of the connection-lifecycle manager and the composable error model
of pytroll-dibby, shallowly embedded from `trolldb/database/mongodb.py` and
`trolldb/errors/errors.py`.
-/

/-! ## Error model: `trolldb/errors/errors.py` -/

/-- A value stored in a `ResponseError` mapping: either a single string or a
list of strings, mirroring the `str | list[str]` union in the source. -/
inductive Msgs where
  | str (s : String)
  | list (l : List String)
deriving DecidableEq

/-- Embeds `_listify` (errors.py line 19): a string is enclosed in a
singleton list, a list is returned as-is. -/
def listify : Msgs → List String
  | .str s => [s]
  | .list l => l

/-- Python truthiness of a stored message value: the empty string and the
empty list are falsy, everything else is truthy. -/
def Msgs.truthy : Msgs → Bool
  | .str s => s ≠ ""
  | .list l => ¬ l.isEmpty

/-- Embeds `_stringify` (errors.py line 41): join the listified messages with
the delimiter. -/
def stringify (m : Msgs) (delim : String) : String :=
  String.intercalate delim (listify m)

/-- The internal `OrderedDict[StatusCode, str | list[str]]` of a
`ResponseError`, as an insertion-ordered association list. -/
abbrev ErrDict := List (Nat × Msgs)

/-- The status codes of an error dictionary, in insertion order. -/
def keys (d : ErrDict) : List Nat := d.map Prod.fst

/-- Dictionary lookup: the value at the first occurrence of the key. -/
def lookup (d : ErrDict) (k : Nat) : Option Msgs :=
  match d with
  | [] => none
  | (k', v) :: rest => if k' = k then some v else lookup rest k

/-- `OrderedDict` assignment `d[k] = v`: replace the value at an existing key,
keeping its position, or append a new key at the end. -/
def setKey (d : ErrDict) (k : Nat) (v : Msgs) : ErrDict :=
  match d with
  | [] => [(k, v)]
  | (k', v') :: rest => if k' = k then (k', v) :: rest else (k', v') :: setKey rest k v

/-- The listified messages stored at a status code (empty when absent). -/
def msgsAt (d : ErrDict) (k : Nat) : List String :=
  match lookup d k with
  | some v => listify v
  | none => []

/-- The value `_listify(self_msg) if self_msg else []` computed by
`ResponseError.__or__` (errors.py line 137) from the buffer's entry at a
key. -/
def baseOf (d : ErrDict) (k : Nat) : List String :=
  match lookup d k with
  | some v => if v.truthy then listify v else []
  | none => []

/-- Embeds the dictionary built by `ResponseError.__or__` (errors.py lines
134-139): starting from a shallow copy of `self.__dict`, for every entry of
`other` the key is set to `_listify(self_msg) if self_msg else []` extended
with the listified message of `other`. -/
def orDict (a b : ErrDict) : ErrDict :=
  b.foldl (fun buff kv => setKey buff kv.1 (.list (baseOf buff kv.1 ++ listify kv.2))) a

/-- The in-place effect of `self | other` on a value of `self.__dict`: the
shallow copy `OrderedDict(self.__dict)` shares the value objects with `self`,
and for a key of `other` at which `self` holds a non-empty list, `_listify`
returns that same list object, so the subsequent `extend` mutates it. All
other values are left untouched (a string value is listified into a fresh
list, and a falsy value is replaced by a fresh empty list). -/
def mutateVal (b : ErrDict) (k : Nat) (v : Msgs) : Msgs :=
  match lookup b k, v with
  | some m, .list l => if l.isEmpty then .list l else .list (l ++ listify m)
  | _, _ => v

/-- The state of `self.__dict` after evaluating `self | other` (errors.py
lines 134-139), accounting for the shared list objects described at
`mutateVal`. -/
def orSelfAfter (a b : ErrDict) : ErrDict :=
  a.map (fun kv => (kv.1, mutateVal b kv.1 kv.2))

/-- Outcome of `ResponseError.__retrieve_one_from_some`: a `(status, message)`
pair, a `ValueError` (ambiguity) or a `KeyError` (status code not found). -/
inductive Retrieved where
  | ok (code : Nat) (msg : Msgs)
  | valueError
  | keyError
deriving DecidableEq

/-- Embeds `ResponseError.__retrieve_one_from_some` (errors.py lines 141-179),
following its `match status_code, len(self.__dict)` arms in order: ambiguity
when no status code is given and there are several entries; lookup when a
status code is given and the dictionary is non-empty; the sole entry when no
status code is given and there is exactly one entry; and the generic
`(500, "Generic Response Error")` fallback otherwise — which is also reached
when a status code is given but the dictionary is empty. -/
def retrieveOneFromSome (d : ErrDict) (status : Option Nat) : Retrieved :=
  match status with
  | none =>
    if d.length > 1 then .valueError
    else
      match d with
      | (k, v) :: _ => .ok k v
      | [] => .ok 500 (.str "Generic Response Error")
  | some sc =>
    if d.length ≥ 1 then
      match lookup d sc with
      | some v => .ok sc v
      | none => .keyError
    else .ok 500 (.str "Generic Response Error")

/-- The suffix `f" :=> {extra_information}" if extra_information else ""`
appended by `get_error_details`; the rendered extra information is kept
opaque as a string. -/
def renderSuffix : Option String → String
  | some e => " :=> " ++ e
  | none => ""

/-- Outcome of `ResponseError.get_error_details`: a `(status, message)` pair,
or one of the exceptions the call can raise. `typeError` is the Python
`TypeError` raised by `msg + suffix` when the stored message is a list. -/
inductive Details where
  | ok (code : Nat) (msg : String)
  | valueError
  | keyError
  | typeError
deriving DecidableEq

/-- Embeds `ResponseError.get_error_details` (errors.py lines 181-198):
retrieve one entry, then append the rendered extra information to the
message. Concatenating a list-valued message with a string raises
`TypeError` in Python. -/
def getErrorDetails (d : ErrDict) (extra : Option String) (status : Option Nat) : Details :=
  match retrieveOneFromSome d status with
  | .valueError => .valueError
  | .keyError => .keyError
  | .ok code m =>
    match m with
    | .str s => .ok code (s ++ renderSuffix extra)
    | .list _ => .typeError

/-- A key of the inner dictionary produced by `fastapi_descriptor`: the source
(errors.py line 245) uses the expression `Literal["description"]`, which in
Python evaluates to the `typing.Literal` object — a value distinct from the
plain string `"description"`. -/
inductive DescKey where
  | typingLiteral (s : String)
  | plainStr (s : String)
deriving DecidableEq

/-- Embeds the `ResponseError.fastapi_descriptor` property (errors.py lines
227-247): every entry is mapped to a one-key dictionary whose key is the
`typing.Literal["description"]` object and whose value joins the listified
messages with the `" |OR| "` delimiter. -/
def fastapi_descriptor (d : ErrDict) : List (Nat × (DescKey × String)) :=
  d.map (fun kv => (kv.1, (DescKey.typingLiteral "description", stringify kv.2 " |OR| ")))

/-! ## Connection manager: `trolldb/database/mongodb.py` -/

/-- Modelled from the spec: `DatabaseConfig` (defined in
`trolldb.config.config`, which is not among the sources) holds the connection
URL, the selection timeout, the main database name and the main collection
name; as a pydantic model it compares fieldwise. -/
structure DatabaseConfig where
  url : String
  timeout : Nat
  main_database_name : String
  main_collection_name : String
deriving DecidableEq

/-- The external MongoDB server as observed through the motor driver: whether
listing database names succeeds (as opposed to raising `ConnectionFailure` or
`ServerSelectionTimeoutError`), and the databases with their collection
names. -/
structure MongoWorld where
  reachable : Bool
  databases : List (String × List String)
deriving DecidableEq

/-- The result of `list_database_names()` on a reachable server. -/
def MongoWorld.databaseNames (w : MongoWorld) : List String :=
  w.databases.map Prod.fst

/-- The result of `list_collection_names()` on a database of a reachable
server (empty for an unknown database name). -/
def MongoWorld.collectionNames (w : MongoWorld) (db : String) : List String :=
  match w.databases.find? (fun p => p.1 = db) with
  | some p => p.2
  | none => []

/-- A motor client object: the URL and timeout it was constructed with, a
creation stamp distinguishing distinct `AsyncIOMotorClient(...)` objects, and
whether `close()` has been called on it. A closed client object is still a
truthy, non-`None` reference. -/
structure ClientHandle where
  url : String
  timeoutMS : Nat
  gen : Nat
  closed : Bool
deriving DecidableEq

/-- A motor database handle, identified by the database name. -/
structure DbHandle where
  name : String
deriving DecidableEq

/-- A motor collection handle, identified by its database and its name. -/
structure CollHandle where
  database : String
  name : String
deriving DecidableEq

/-- The class-level state of `MongoDB` (mongodb.py lines 100-103): `__client`,
`__database_config`, `__main_collection`, `__main_database`. `nextGen` counts
the client objects constructed so far, to model Python object identity of
freshly created clients. -/
structure MongoState where
  client : Option ClientHandle
  database_config : Option DatabaseConfig
  main_collection : Option CollHandle
  main_database : Option DbHandle
  nextGen : Nat
deriving DecidableEq

/-- The state before any call: all four attributes unset. -/
def MongoState.initial : MongoState := ⟨none, none, none, none, 0⟩

/-- `errno.EIO` on Linux. -/
def errnoEio : Nat := 5

/-- `errno.ENODATA` on Linux. -/
def errnoEnodata : Nat := 61

/-- The identity of the `ResponseError` constant (from
`trolldb.database.errors`) through which an operation reports failure. -/
inductive DbError where
  | alreadyOpen
  | inconsistency
  | reinitializeConfig
  | connectionError
  | databasesNotFound
  | collectionsNotFound
  | closeNotAllowed
  | wrongType
deriving DecidableEq

/-- Outcome of `MongoDB.initialize`: a normal return with the new state, a
normal return after `Client.AlreadyOpenError.log_as_warning()` (a warning is
logged, the state is untouched), or `sys_exit_log` terminating the process
with an exit code and the extra-information context passed at the call
site. -/
inductive InitResult where
  | ok (s : MongoState)
  | warned (s : MongoState)
  | exited (err : DbError) (code : Nat) (extra : List (String × String))
deriving DecidableEq

/-- Embeds `MongoDB.initialize` (mongodb.py lines 110-173). If
`cls.__database_config` is set: an equal config with a truthy client logs the
already-open warning and returns; an equal config without a client exits with
`errno.EIO`; a different config exits with `errno.EIO`. Otherwise a fresh
client object is constructed, reachability is probed eagerly by listing
database names (failure exits with `errno.EIO` and the URL as context), the
main database name is checked against the listed names and the main
collection name against the database's collection names (absence exits with
`errno.ENODATA` and the names as context), and the main handles are cached.
Note: the source never assigns `cls.__database_config`. -/
def mongoInit (w : MongoWorld) (s : MongoState) (cfg : DatabaseConfig) : InitResult :=
  match s.database_config with
  | some cached =>
    if cfg = cached then
      if s.client.isSome then .warned s
      else .exited .inconsistency errnoEio []
    else .exited .reinitializeConfig errnoEio []
  | none =>
    let s1 : MongoState :=
      { s with client := some ⟨cfg.url, cfg.timeout, s.nextGen, false⟩, nextGen := s.nextGen + 1 }
    if w.reachable then
      if cfg.main_database_name ∈ w.databaseNames then
        let s2 : MongoState := { s1 with main_database := some ⟨cfg.main_database_name⟩ }
        if cfg.main_collection_name ∈ w.collectionNames cfg.main_database_name then
          .ok { s2 with main_collection := some ⟨cfg.main_database_name, cfg.main_collection_name⟩ }
        else
          .exited .collectionsNotFound errnoEnodata
            [("database_name", cfg.main_database_name),
             ("collection_name", cfg.main_collection_name)]
      else
        .exited .databasesNotFound errnoEnodata [("database_name", cfg.main_database_name)]
    else
      .exited .connectionError errnoEio [("url", cfg.url)]

/-- Outcome of `MongoDB.close`: a normal return with the new state, or
`sys_exit_log` terminating the process. -/
inductive CloseResult where
  | ok (s : MongoState)
  | exited (err : DbError) (code : Nat)
deriving DecidableEq

/-- Embeds `MongoDB.close` (mongodb.py lines 175-183): with a truthy client
reference — a closed client object is still truthy — the cached config is
cleared and `client.close()` closes the client object; the reference itself
is never cleared. Without a client reference, `sys_exit_log(errno.EIO)`. -/
def close (s : MongoState) : CloseResult :=
  match s.client with
  | some c => .ok { s with database_config := none, client := some { c with closed := true } }
  | none => .exited .closeNotAllowed errnoEio

/-- Outcome of `MongoDB.get_database`: a handle (`none` when the accessor
returns the unset main database), a raised `ResponseError`, or a driver-level
failure (`AttributeError` on a `None` client, or a connection error while
listing names). -/
inductive GetDbResult where
  | ok (h : Option DbHandle)
  | raised (e : DbError)
  | driverError
deriving DecidableEq

/-- Embeds `MongoDB.get_database` (mongodb.py lines 259-282): `None` returns
the cached main database; a string name is checked against
`cls.list_database_names()` — which dereferences `cls.__client` with no guard
and performs a server round trip — and resolves to `cls.__client[name]` when
present, raising `Databases.NotFoundError` otherwise. -/
def get_database (w : MongoWorld) (s : MongoState) (name : Option String) : GetDbResult :=
  match name with
  | none => .ok s.main_database
  | some d =>
    match s.client with
    | none => .driverError
    | some _ =>
      if w.reachable then
        if d ∈ w.databaseNames then .ok (some ⟨d⟩)
        else .raised .databasesNotFound
      else .driverError

/-- Outcome of `MongoDB.get_collection`: a handle (`none` when the accessor
returns the unset main collection), a raised `ResponseError`, or a
driver-level failure. -/
inductive GetCollResult where
  | ok (h : Option CollHandle)
  | raised (e : DbError)
  | driverError
deriving DecidableEq

/-- Embeds `MongoDB.get_collection` (mongodb.py lines 211-257): the three-way
`match database_name, collection_name` — both `None` returns
`cls.main_collection()`; both strings resolve the database via
`get_database`, then return `db[collection_name]` when the collection name is
listed, raising `Collections.NotFoundError` otherwise; any other combination
raises `Collections.WrongTypeError`. -/
def get_collection (w : MongoWorld) (s : MongoState) (dbName collName : Option String) :
    GetCollResult :=
  match dbName, collName with
  | none, none => .ok s.main_collection
  | some d, some c =>
    match get_database w s (some d) with
    | .ok (some h) =>
      if c ∈ w.collectionNames h.name then .ok (some ⟨h.name, c⟩)
      else .raised .collectionsNotFound
    | .ok none => .driverError
    | .raised e => .raised e
    | .driverError => .driverError
  | _, _ => .raised .wrongType

/-! ## Concrete instances used in the claim-level evaluations -/

/-- The test configuration from `trolldb/test_utils/common.py`. -/
def cfg0 : DatabaseConfig :=
  ⟨"mongodb://localhost:28017", 1000, "mock_database", "mock_collection"⟩

/-- A reachable server holding the default databases plus the test one. -/
def w0 : MongoWorld :=
  ⟨true, [("admin", []), ("config", []), ("local", []),
          ("mock_database", ["mock_collection"])]⟩

/-- The state after a first successful `MongoDB.initialize` on `w0`/`cfg0`:
client constructed (stamp 0), handles cached, config still unset. -/
def st1 : MongoState :=
  ⟨some ⟨"mongodb://localhost:28017", 1000, 0, false⟩, none,
   some ⟨"mock_database", "mock_collection"⟩, some ⟨"mock_database"⟩, 1⟩

/-- The state after a second `MongoDB.initialize` on `w0`/`cfg0`: a fresh
client object (stamp 1) replaces the first. -/
def st2 : MongoState :=
  ⟨some ⟨"mongodb://localhost:28017", 1000, 1, false⟩, none,
   some ⟨"mock_database", "mock_collection"⟩, some ⟨"mock_database"⟩, 2⟩

/-- The state after `MongoDB.close` on `st1`: the client object is closed but
the reference and the cached handles remain. -/
def st1c : MongoState :=
  ⟨some ⟨"mongodb://localhost:28017", 1000, 0, true⟩, none,
   some ⟨"mock_database", "mock_collection"⟩, some ⟨"mock_database"⟩, 1⟩

/-! ## Helper lemmas -/

lemma lookup_eq_none_iff (d : ErrDict) (k : Nat) : lookup d k = none ↔ k ∉ keys d := by
  induction d with
  | nil => simp [lookup, keys]
  | cons hd tl ih =>
    obtain ⟨k', v⟩ := hd
    by_cases hk : k' = k
    · subst hk; simp [lookup, keys]
    · simp [lookup, keys, hk, ih, Ne.symm hk]

lemma lookup_some_ne_nil {d : ErrDict} {k : Nat} {v : Msgs} (h : lookup d k = some v) :
    d ≠ [] := by
  cases d with
  | nil => simp [lookup] at h
  | cons hd tl => simp

lemma lookup_setKey_self (d : ErrDict) (k : Nat) (v : Msgs) :
    lookup (setKey d k v) k = some v := by
  induction d with
  | nil => simp [setKey, lookup]
  | cons hd tl ih =>
    obtain ⟨k', v'⟩ := hd
    by_cases hk : k' = k
    · subst hk; simp [setKey, lookup]
    · simp [setKey, lookup, hk, ih]

lemma lookup_setKey_ne (d : ErrDict) (k : Nat) (v : Msgs) (k' : Nat) (h : k' ≠ k) :
    lookup (setKey d k v) k' = lookup d k' := by
  have h' : k ≠ k' := Ne.symm h
  induction d with
  | nil => simp [setKey, lookup, h']
  | cons hd tl ih =>
    obtain ⟨k'', v''⟩ := hd
    by_cases hk : k'' = k
    · subst hk
      simp [setKey, lookup, h']
    · simp [setKey, lookup, hk, ih]

lemma keys_setKey_mem (d : ErrDict) (k : Nat) (v : Msgs) (h : k ∈ keys d) :
    keys (setKey d k v) = keys d := by
  induction d with
  | nil => simp [keys] at h
  | cons hd tl ih =>
    obtain ⟨k', v'⟩ := hd
    by_cases hk : k' = k
    · subst hk; simp [setKey, keys]
    · have hmem : k = k' ∨ k ∈ keys tl := by simpa [keys] using h
      have htl : k ∈ keys tl := by
        rcases hmem with h1 | h1
        · exact absurd h1.symm hk
        · exact h1
      simp only [setKey, keys, List.map_cons, if_neg hk]
      simpa [keys] using ih htl

lemma keys_setKey_not_mem (d : ErrDict) (k : Nat) (v : Msgs) (h : k ∉ keys d) :
    keys (setKey d k v) = keys d ++ [k] := by
  induction d with
  | nil => simp [setKey, keys]
  | cons hd tl ih =>
    obtain ⟨k', v'⟩ := hd
    have hcons : keys ((k', v') :: tl) = k' :: keys tl := by simp [keys]
    rw [hcons] at h
    have hk : k' ≠ k := by
      intro hh
      exact h (by rw [← hh]; exact List.mem_cons_self _ _)
    have htl : k ∉ keys tl := fun hh => h (List.mem_cons_of_mem _ hh)
    simp only [setKey, keys, List.map_cons, if_neg hk, List.cons_append]
    simpa [keys] using ih htl

lemma lookup_orDict : ∀ (b : ErrDict), (keys b).Nodup → ∀ (a : ErrDict) (k : Nat),
    lookup (orDict a b) k =
      match lookup b k with
      | none => lookup a k
      | some m => some (.list (baseOf a k ++ listify m)) := by
  intro b
  induction b with
  | nil => intro _ a k; simp [orDict, lookup]
  | cons hd tl ih =>
    intro hb a k
    have hb' : (keys tl).Nodup := by
      simpa [keys] using hb.of_cons
    have hhd : hd.1 ∉ keys tl := by
      have := hb
      simp only [keys, List.map_cons, List.nodup_cons] at this
      exact this.1
    have hstep : orDict a (hd :: tl) =
        orDict (setKey a hd.1 (.list (baseOf a hd.1 ++ listify hd.2))) tl := rfl
    rw [hstep, ih hb']
    by_cases hk : hd.1 = k
    · subst hk
      have h1 : lookup tl hd.1 = none := (lookup_eq_none_iff tl hd.1).mpr hhd
      have h2 : lookup (hd :: tl) hd.1 = some hd.2 := by
        cases hd; simp [lookup]
      rw [h1, h2]
      simp [lookup_setKey_self]
    · have h1 : lookup (hd :: tl) k = lookup tl k := by
        cases hd; simp [lookup, hk]
      rw [h1, lookup_setKey_ne _ _ _ _ (fun hh => hk hh.symm)]
      have h2 : baseOf (setKey a hd.1 (.list (baseOf a hd.1 ++ listify hd.2))) k = baseOf a k := by
        simp [baseOf, lookup_setKey_ne _ _ _ _ (fun hh => hk hh.symm)]
      rw [h2]

lemma keys_orDict : ∀ (b : ErrDict), (keys b).Nodup → ∀ (a : ErrDict),
    keys (orDict a b) = keys a ++ (keys b).filter (fun k => decide (k ∉ keys a)) := by
  intro b
  induction b with
  | nil => intro _ a; simp [orDict, keys]
  | cons hd tl ih =>
    intro hb a
    have hb' : (keys tl).Nodup := by
      simpa [keys] using hb.of_cons
    have hhd : hd.1 ∉ keys tl := by
      have := hb
      simp only [keys, List.map_cons, List.nodup_cons] at this
      exact this.1
    have hstep : orDict a (hd :: tl) =
        orDict (setKey a hd.1 (.list (baseOf a hd.1 ++ listify hd.2))) tl := rfl
    have hkeys : keys (hd :: tl) = hd.1 :: keys tl := by cases hd; simp [keys]
    rw [hstep, ih hb', hkeys]
    by_cases hmem : hd.1 ∈ keys a
    · rw [keys_setKey_mem _ _ _ hmem]
      simp [hmem]
    · rw [keys_setKey_not_mem _ _ _ hmem]
      have hcongr :
          (keys tl).filter (fun k => decide (k ∉ keys a ++ [hd.1])) =
          (keys tl).filter (fun k => decide (k ∉ keys a)) := by
        apply List.filter_congr
        intro k hk
        have hne : k ≠ hd.1 := fun hh => hhd (hh ▸ hk)
        simp [hne, hmem]
      rw [hcongr]
      simp [hmem, List.append_assoc]

lemma lookup_orSelfAfter (b : ErrDict) : ∀ (a : ErrDict) (k : Nat),
    lookup (orSelfAfter a b) k = (lookup a k).map (mutateVal b k) := by
  intro a
  induction a with
  | nil => intro k; simp [orSelfAfter, lookup]
  | cons hd tl ih =>
    intro k
    obtain ⟨k', v'⟩ := hd
    by_cases hk : k' = k
    · subst hk; simp [orSelfAfter, lookup]
    · simpa [orSelfAfter, lookup, hk] using ih k

lemma mongoInit_ok_inv {w : MongoWorld} {s : MongoState} {cfg : DatabaseConfig}
    {s' : MongoState} (h : mongoInit w s cfg = .ok s') :
    s.database_config = none ∧ w.reachable = true ∧
    cfg.main_database_name ∈ w.databaseNames ∧
    cfg.main_collection_name ∈ w.collectionNames cfg.main_database_name ∧
    s' = { s with
             client := some ⟨cfg.url, cfg.timeout, s.nextGen, false⟩,
             nextGen := s.nextGen + 1,
             main_database := some ⟨cfg.main_database_name⟩,
             main_collection := some ⟨cfg.main_database_name, cfg.main_collection_name⟩ } := by
  obtain ⟨cl, dbc, mc, md, g⟩ := s
  cases dbc with
  | some cached =>
    simp only [mongoInit] at h
    split at h
    · split at h <;> simp_all
    · simp_all
  | none =>
    simp only [mongoInit] at h
    split at h
    · split at h
      · split at h
        · injection h with h
          refine ⟨rfl, by assumption, by assumption, by assumption, h.symm⟩
        · simp_all
      · simp_all
    · simp_all

/-! ## Claims about the error model -/

/-- Claim C6 (counterexample): combining `{400: ""}` with `{400: "B"}` drops
the left operand's (empty) message entirely — the shared status code maps to
`["B"]`, not to the left operand's message list `[""]` followed by `["B"]`,
because `__or__` replaces a falsy stored value by a fresh empty list. -/
theorem orCombineDropsEmptyMessage :
    orDict [(400, Msgs.str "")] [(400, Msgs.str "B")] = [(400, Msgs.list ["B"])] ∧
    msgsAt (orDict [(400, Msgs.str "")] [(400, Msgs.str "B")]) 400 ≠
      listify (Msgs.str "") ++ listify (Msgs.str "B") := by
  constructor
  · rfl
  · decide

/-- Claim C6 (amended): for error values with duplicate-free status codes,
`a | b` is an order-preserving union — the status codes are a's followed by
b's new ones in b's order; a code absent from b keeps a's value unchanged; a
code of b maps to a's messages followed by b's messages when a's entry is
truthy (a non-empty string or non-empty list), and to b's messages alone when
a has no entry there or a falsy (empty) one; in particular
`{400: "A"} | {400: "B"}` is `{400: ["A", "B"]}` and `{400: "A"} | {404: "B"}`
preserves insertion order with messages `"A"` at 400 and `["B"]` at 404. -/
theorem orCombineMerge (a b : ErrDict) (hb : (keys b).Nodup) :
    keys (orDict a b) = keys a ++ (keys b).filter (fun k => decide (k ∉ keys a)) ∧
    (∀ k, lookup b k = none → lookup (orDict a b) k = lookup a k) ∧
    (∀ k v m, lookup b k = some m → lookup a k = some v → v.truthy = true →
      msgsAt (orDict a b) k = listify v ++ listify m) ∧
    (∀ k m, lookup b k = some m → lookup a k = none →
      msgsAt (orDict a b) k = listify m) ∧
    (∀ k v m, lookup b k = some m → lookup a k = some v → v.truthy = false →
      msgsAt (orDict a b) k = listify m) ∧
    orDict [(400, Msgs.str "A")] [(400, Msgs.str "B")] = [(400, Msgs.list ["A", "B"])] ∧
    orDict [(400, Msgs.str "A")] [(404, Msgs.str "B")] =
      [(400, Msgs.str "A"), (404, Msgs.list ["B"])] := by
  refine ⟨keys_orDict b hb a, ?_, ?_, ?_, ?_, by decide, by decide⟩
  · intro k hk
    have heq := lookup_orDict b hb a k
    rw [hk] at heq
    exact heq
  · intro k v m hbk hak htr
    have heq := lookup_orDict b hb a k
    rw [hbk] at heq
    simp [msgsAt, heq, baseOf, hak, htr, listify]
  · intro k m hbk hak
    have heq := lookup_orDict b hb a k
    rw [hbk] at heq
    simp [msgsAt, heq, baseOf, hak, listify]
  · intro k v m hbk hak htr
    have heq := lookup_orDict b hb a k
    rw [hbk] at heq
    simp [msgsAt, heq, baseOf, hak, htr, listify]

/-- Witness for `orCombineMerge` at `a = {400: "A"}`, `b = {400: "B"}`. -/
theorem orCombineMergeWitness :
    (keys [(400, Msgs.str "B")]).Nodup ∧
    msgsAt (orDict [(400, Msgs.str "A")] [(400, Msgs.str "B")]) 400 =
      listify (Msgs.str "A") ++ listify (Msgs.str "B") :=
  ⟨by decide,
   (orCombineMerge [(400, Msgs.str "A")] [(400, Msgs.str "B")] (by decide)).2.2.1 400
     (Msgs.str "A") (Msgs.str "B") (by decide) (by decide) (by decide)⟩

/-- Claim C7 (counterexample): evaluating `a | b` with `a = {400: ["A"]}` and
`b = {400: "B"}` extends a's stored list object in place — afterwards a's
mapping reads `{400: ["A", "B"]}`, not its original value. -/
theorem orCombineMutatesLeftList :
    orSelfAfter [(400, Msgs.list ["A"])] [(400, Msgs.str "B")] =
      [(400, Msgs.list ["A", "B"])] ∧
    orSelfAfter [(400, Msgs.list ["A"])] [(400, Msgs.str "B")] ≠
      [(400, Msgs.list ["A"])] := by decide

/-- Claim C7 (amended): `a | b` builds a new top-level mapping and never
mutates b, but a is left intact only outside the status codes shared with b
at which a stores a non-empty list: such a list is extended in place with b's
listified messages (ending up equal to the combined result's entry); entries
of a at codes absent from b, string-valued entries and empty-list entries are
unchanged. -/
theorem orCombineLeftAliasing (a b : ErrDict) (hb : (keys b).Nodup) :
    (∀ k, lookup b k = none → lookup (orSelfAfter a b) k = lookup a k) ∧
    (∀ k s, lookup a k = some (Msgs.str s) →
      lookup (orSelfAfter a b) k = some (Msgs.str s)) ∧
    (∀ k, lookup a k = some (Msgs.list []) →
      lookup (orSelfAfter a b) k = some (Msgs.list [])) ∧
    (∀ k l m, lookup a k = some (Msgs.list l) → l ≠ [] → lookup b k = some m →
      lookup (orSelfAfter a b) k = some (Msgs.list (l ++ listify m)) ∧
      lookup (orSelfAfter a b) k = lookup (orDict a b) k) := by
  refine ⟨?_, ?_, ?_, ?_⟩
  · intro k hk
    rw [lookup_orSelfAfter b a k]
    cases hak : lookup a k <;> simp [mutateVal, hk]
  · intro k s hak
    rw [lookup_orSelfAfter b a k, hak]
    cases hbk : lookup b k <;> simp [mutateVal, hbk]
  · intro k hak
    rw [lookup_orSelfAfter b a k, hak]
    cases hbk : lookup b k <;> simp [mutateVal, hbk]
  · intro k l m hak hl hbk
    have hne : l.isEmpty = false := by
      cases l with
      | nil => exact absurd rfl hl
      | cons x xs => rfl
    constructor
    · rw [lookup_orSelfAfter b a k, hak]
      simp [mutateVal, hbk, hne]
    · rw [lookup_orSelfAfter b a k, hak]
      have heq := lookup_orDict b hb a k
      rw [hbk] at heq
      rw [heq]
      have htr : (Msgs.list l).truthy = true := by simp [Msgs.truthy, hne]
      simp [mutateVal, hbk, hne, baseOf, hak, htr, listify]

/-- Witness for `orCombineLeftAliasing` at `a = {400: ["A"]}`, `b = {400: "B"}`. -/
theorem orCombineLeftAliasingWitness :
    (keys [(400, Msgs.str "B")]).Nodup ∧
    lookup (orSelfAfter [(400, Msgs.list ["A"])] [(400, Msgs.str "B")]) 400 =
      some (Msgs.list (["A"] ++ listify (Msgs.str "B"))) :=
  ⟨by decide,
   ((orCombineLeftAliasing [(400, Msgs.list ["A"])] [(400, Msgs.str "B")]
       (by decide)).2.2.2 400 ["A"] (Msgs.str "B") (by decide) (by decide) (by decide)).1⟩

/-- Claim C8 (counterexample): on an empty error value, `get_error_details`
with a status code given returns the generic `(500, "Generic Response Error")`
fallback instead of raising the not-found error (the `case StatusCode(), n if
n >= 1` arm does not fire and control falls through to the final `case _`);
and on a single-entry value storing a list of messages with no status code
given, it raises `TypeError` instead of returning the entry. -/
theorem detailsEmptyDictStatusCode :
    getErrorDetails [] none (some 400) = Details.ok 500 "Generic Response Error" ∧
    Details.ok 500 "Generic Response Error" ≠ Details.keyError ∧
    getErrorDetails [(400, Msgs.list ["A"])] none none = Details.typeError := by decide

/-- Claim C8 (amended): `get_error_details` returns the sole entry when the
value has exactly one entry storing a plain string and no status code is
given (suffixed with the rendered extra information); raises a type error on
a sole list-valued entry; raises the ambiguity error when several entries
exist and no status code is given; raises the not-found error when the given
status code is absent from a NON-empty mapping; returns the generic
`(500, "Generic Response Error")` (plus suffix) on an empty mapping whether
or not a status code is given; and suffixes the message with the rendered
extra information whenever a string-valued entry is returned. -/
theorem getErrorDetailsResolution (d : ErrDict) (extra : Option String) :
    (∀ k s, d = [(k, Msgs.str s)] →
      getErrorDetails d extra none = .ok k (s ++ renderSuffix extra)) ∧
    (∀ k l, d = [(k, Msgs.list l)] → getErrorDetails d extra none = .typeError) ∧
    (1 < d.length → getErrorDetails d extra none = .valueError) ∧
    (∀ sc, d ≠ [] → lookup d sc = none →
      getErrorDetails d extra (some sc) = .keyError) ∧
    (getErrorDetails [] extra none = .ok 500 ("Generic Response Error" ++ renderSuffix extra)) ∧
    (∀ sc, getErrorDetails [] extra (some sc) =
      .ok 500 ("Generic Response Error" ++ renderSuffix extra)) ∧
    (∀ sc s, lookup d sc = some (Msgs.str s) →
      getErrorDetails d extra (some sc) = .ok sc (s ++ renderSuffix extra)) := by
  refine ⟨?_, ?_, ?_, ?_, ?_, ?_, ?_⟩
  · intro k s h
    subst h
    simp [getErrorDetails, retrieveOneFromSome]
  · intro k l h
    subst h
    simp [getErrorDetails, retrieveOneFromSome]
  · intro h
    simp [getErrorDetails, retrieveOneFromSome, h]
  · intro sc hne hl
    have hlen : 1 ≤ d.length := List.length_pos.mpr hne
    simp [getErrorDetails, retrieveOneFromSome, hlen, hl]
  · simp [getErrorDetails, retrieveOneFromSome]
  · intro sc
    simp [getErrorDetails, retrieveOneFromSome]
  · intro sc s hl
    have hlen : 1 ≤ d.length := List.length_pos.mpr (lookup_some_ne_nil hl)
    simp [getErrorDetails, retrieveOneFromSome, hlen, hl]

/-- Witness for `getErrorDetailsResolution` at the value `{404: "Not Found"}`. -/
theorem getErrorDetailsResolutionWitness :
    getErrorDetails [(404, Msgs.str "Not Found")] none none =
      Details.ok 404 ("Not Found" ++ renderSuffix none) :=
  (getErrorDetailsResolution [(404, Msgs.str "Not Found")] none).1 404 "Not Found" rfl

/-- Claim C9: `fastapi_descriptor` joins each entry's message list with
`" |OR| "` as documented, but the key of the inner one-entry dictionary is
the `typing.Literal["description"]` object — not the plain string
`"description"` that the docstring example and the spec promise. -/
theorem fastapiDescriptorLiteralKey :
    fastapi_descriptor [(400, Msgs.list ["A", "B"]), (404, Msgs.str "B")] =
      [(400, (DescKey.typingLiteral "description", "A |OR| B")),
       (404, (DescKey.typingLiteral "description", "B"))] ∧
    DescKey.typingLiteral "description" ≠ DescKey.plainStr "description" := by decide

/-! ## Claims about the connection manager -/

/-- Claim C1: the re-initialization guard is dead code — evaluated on the
source, a first successful `initialize` leaves `__database_config` unset
(the method never assigns it), so a second `initialize` with the identical
configuration neither logs the already-open warning nor leaves the state
equal to the state after the first call: it silently constructs a fresh
client object and re-runs the whole probe. -/
theorem doubleInitSilentlyReinitializes :
    mongoInit w0 MongoState.initial cfg0 = InitResult.ok st1 ∧
    st1.database_config = none ∧
    mongoInit w0 st1 cfg0 = InitResult.ok st2 ∧
    st2 ≠ st1 := by decide

/-- Claim C2: after a successful `initialize` the client and both main
handles are set, but `__database_config` is still `None` (it is never
assigned), so the cached config does not equal the argument and the
"client and config both `None` or both set" invariant is violated in a
reachable state. -/
theorem initLeavesConfigNone :
    mongoInit w0 MongoState.initial cfg0 = InitResult.ok st1 ∧
    st1.client.isSome = true ∧
    st1.main_database.isSome = true ∧
    st1.main_collection.isSome = true ∧
    st1.database_config = none := by decide

/-- Claim C3: from any state with no cached config, `initialize` probes
reachability eagerly — an unreachable server exits with `errno.EIO` and the
URL as context; a missing main database exits with `errno.ENODATA` and the
database name as context; a missing main collection exits with
`errno.ENODATA` and both names as context; and whenever `initialize` returns
normally the server is reachable and the configured database and collection
exist. -/
theorem initFailFast (w : MongoWorld) (s : MongoState) (cfg : DatabaseConfig)
    (hcfg : s.database_config = none) :
    (w.reachable = false →
      mongoInit w s cfg = .exited .connectionError errnoEio [("url", cfg.url)]) ∧
    (w.reachable = true → cfg.main_database_name ∉ w.databaseNames →
      mongoInit w s cfg = .exited .databasesNotFound errnoEnodata
        [("database_name", cfg.main_database_name)]) ∧
    (w.reachable = true → cfg.main_database_name ∈ w.databaseNames →
      cfg.main_collection_name ∉ w.collectionNames cfg.main_database_name →
      mongoInit w s cfg = .exited .collectionsNotFound errnoEnodata
        [("database_name", cfg.main_database_name),
         ("collection_name", cfg.main_collection_name)]) ∧
    (∀ s', mongoInit w s cfg = .ok s' → w.reachable = true ∧
      cfg.main_database_name ∈ w.databaseNames ∧
      cfg.main_collection_name ∈ w.collectionNames cfg.main_database_name) := by
  obtain ⟨cl, dbc, mc, md, g⟩ := s
  simp only [MongoState.database_config] at hcfg
  subst hcfg
  refine ⟨?_, ?_, ?_, ?_⟩
  · intro hre
    simp [mongoInit, hre]
  · intro hre hdb
    simp [mongoInit, hre, hdb]
  · intro hre hdb hc
    simp [mongoInit, hre, hdb, hc]
  · intro s' h
    obtain ⟨-, h2, h3, h4, -⟩ := mongoInit_ok_inv h
    exact ⟨h2, h3, h4⟩

/-- Witness for `initFailFast` at an unreachable server. -/
theorem initFailFastWitness :
    MongoState.initial.database_config = none ∧
    mongoInit ⟨false, []⟩ MongoState.initial cfg0 =
      InitResult.exited DbError.connectionError errnoEio [("url", cfg0.url)] :=
  ⟨rfl, (initFailFast ⟨false, []⟩ MongoState.initial cfg0 rfl).1 rfl⟩

/-- Claim C4 (counterexample): after a successful `initialize` followed by a
`close`, the client reference is still set (only the client object was
closed), so a second `close` succeeds again instead of terminating the
process — closing twice is not fatal. -/
theorem secondCloseNotFatal :
    mongoInit w0 MongoState.initial cfg0 = InitResult.ok st1 ∧
    close st1 = CloseResult.ok st1c ∧
    close st1c = CloseResult.ok st1c ∧
    CloseResult.ok st1c ≠ CloseResult.exited DbError.closeNotAllowed errnoEio := by decide

/-- Claim C4 (amended): `close()` terminates the process with `errno.EIO`
exactly when the client reference is unset (i.e. `initialize` never
constructed a client); whenever the reference is set — even to an
already-closed client object, since `close` never clears the reference — it
clears the cached config and closes the client object, so a second `close`
is again a normal return rather than a fatal error. -/
theorem closeDispatch (s : MongoState) :
    (s.client = none → close s = .exited .closeNotAllowed errnoEio) ∧
    (∀ c, s.client = some c →
      close s = .ok { s with database_config := none,
                             client := some { c with closed := true } }) := by
  constructor
  · intro h
    simp [close, h]
  · intro c h
    simp [close, h]

/-- Witness for `closeDispatch` at the never-initialized state and at `st1`. -/
theorem closeDispatchWitness :
    (MongoState.initial.client = none ∧
      close MongoState.initial = CloseResult.exited DbError.closeNotAllowed errnoEio) ∧
    (st1.client = some ⟨"mongodb://localhost:28017", 1000, 0, false⟩ ∧
      close st1 = CloseResult.ok st1c) :=
  ⟨⟨rfl, (closeDispatch MongoState.initial).1 rfl⟩,
   ⟨rfl, (closeDispatch st1).2 ⟨"mongodb://localhost:28017", 1000, 0, false⟩ rfl⟩⟩

/-- Claim C5: `get_collection` dispatches three ways — both names `None`
returns the cached main collection (exactly what `main_collection()`
returns); both names strings resolves the database via `get_database` and
returns the collection handle when the collection name is listed, raising
the collection-not-found error otherwise; and a single `None` raises the
wrong-type error, covering every remaining combination. -/
theorem getCollectionThreeWay (w : MongoWorld) (s : MongoState) (d c : String)
    (hcl : s.client.isSome = true) (hre : w.reachable = true)
    (hdb : d ∈ w.databaseNames) :
    get_collection w s none none = .ok s.main_collection ∧
    (c ∈ w.collectionNames d →
      get_collection w s (some d) (some c) = .ok (some ⟨d, c⟩)) ∧
    (c ∉ w.collectionNames d →
      get_collection w s (some d) (some c) = .raised .collectionsNotFound) ∧
    get_collection w s none (some c) = .raised .wrongType ∧
    get_collection w s (some d) none = .raised .wrongType := by
  obtain ⟨cl, hcl'⟩ := Option.isSome_iff_exists.mp hcl
  refine ⟨rfl, ?_, ?_, rfl, rfl⟩
  · intro hc
    simp [get_collection, get_database, hcl', hre, hdb, hc]
  · intro hc
    simp [get_collection, get_database, hcl', hre, hdb, hc]

/-- Witness for `getCollectionThreeWay` on the test instance. -/
theorem getCollectionThreeWayWitness :
    st1.client.isSome = true ∧ w0.reachable = true ∧
    "mock_database" ∈ w0.databaseNames ∧
    (get_collection w0 st1 none none = GetCollResult.ok st1.main_collection ∧
     ("mock_collection" ∈ w0.collectionNames "mock_database" →
       get_collection w0 st1 (some "mock_database") (some "mock_collection") =
         GetCollResult.ok (some ⟨"mock_database", "mock_collection"⟩)) ∧
     ("mock_collection" ∉ w0.collectionNames "mock_database" →
       get_collection w0 st1 (some "mock_database") (some "mock_collection") =
         GetCollResult.raised DbError.collectionsNotFound) ∧
     get_collection w0 st1 none (some "mock_collection") =
       GetCollResult.raised DbError.wrongType ∧
     get_collection w0 st1 (some "mock_database") none =
       GetCollResult.raised DbError.wrongType) :=
  ⟨by decide, rfl, by decide,
   getCollectionThreeWay w0 st1 "mock_database" "mock_collection" (by decide) rfl (by decide)⟩

/-- Claim C10: `close` after a successful `initialize` resets only the cached
configuration (and closes the client object): the main database and main
collection handles cached by that `initialize` are still returned by the
accessors, and the internal client reference remains set. -/
theorem closeKeepsHandles (w : MongoWorld) (s : MongoState) (cfg : DatabaseConfig)
    (s' s'' : MongoState) (h1 : mongoInit w s cfg = .ok s')
    (h2 : close s' = .ok s'') :
    s''.main_database = s'.main_database ∧
    s''.main_collection = s'.main_collection ∧
    s''.main_database = some ⟨cfg.main_database_name⟩ ∧
    s''.main_collection = some ⟨cfg.main_database_name, cfg.main_collection_name⟩ ∧
    s''.client.isSome = true ∧
    s''.database_config = none ∧
    s''.nextGen = s'.nextGen := by
  obtain ⟨-, -, -, -, h5⟩ := mongoInit_ok_inv h1
  subst h5
  simp only [close, CloseResult.ok.injEq] at h2
  subst h2
  exact ⟨rfl, rfl, rfl, rfl, rfl, rfl, rfl⟩

/-- Witness for `closeKeepsHandles` on the test instance. -/
theorem closeKeepsHandlesWitness :
    mongoInit w0 MongoState.initial cfg0 = InitResult.ok st1 ∧
    close st1 = CloseResult.ok st1c ∧
    (st1c.main_database = st1.main_database ∧
     st1c.main_collection = st1.main_collection ∧
     st1c.main_database = some ⟨"mock_database"⟩ ∧
     st1c.main_collection = some ⟨"mock_database", "mock_collection"⟩ ∧
     st1c.client.isSome = true ∧
     st1c.database_config = none ∧
     st1c.nextGen = st1.nextGen) :=
  ⟨by decide, by decide,
   closeKeepsHandles w0 MongoState.initial cfg0 st1 st1c (by decide) (by decide)⟩
